import Mathlib

/-!
Shallow embedding of the db-backup-operator core (src/operator/config.py,
src/operator/templates.py, src/operator/handlers.py).

Kubernetes/kopf are external collaborators: cluster-API calls are passed in as
explicit `Except` results, handler side effects are recorded as an explicit
list of attempted cluster actions, and a kopf status patch is a record of
optional fields (`none` = field not written by the handler).
-/

namespace DbBackupOperator

/-! ## config.py -/

/-- Environment variables read by `config.py` (`os.getenv`).  `none` models an
unset variable; for `DEFAULT_RETENTION_DAYS` it also models an unparseable
value (the `int(...)` failure is swallowed and the default kept). -/
structure EnvSettings where
  OPERATOR_NAMESPACE : Option String := none
  LOG_LEVEL : Option String := none
  ENABLE_WEBHOOKS : Option String := none
  ENABLE_METRICS : Option String := none
  DEFAULT_BACKUP_SCHEDULE : Option String := none
  DEFAULT_RETENTION_DAYS : Option Nat := none
deriving DecidableEq, Repr

/-- Python `dict.get(key)` over an association list (insertion order kept). -/
def dictGet {β : Type} (d : List (String × β)) (k : String) : Option β :=
  match d with
  | [] => none
  | (k', v) :: rest => if k' = k then some v else dictGet rest k

/-- `DatabaseConfig` dataclass. -/
structure DatabaseConfig where
  supported_types : List String
  default_ports : List (String × Nat)
  images : List (String × String)
deriving DecidableEq, Repr

/-- Default field values of `DatabaseConfig`. -/
def DatabaseConfig.default : DatabaseConfig :=
  { supported_types := ["postgres", "mysql", "mongodb"]
    default_ports := [("postgres", 5432), ("mysql", 3306), ("mongodb", 27017)]
    images := [("postgres", "postgres:15-alpine"), ("mysql", "mysql:8.0"),
               ("mongodb", "mongo:7.0")] }

/-- `StorageConfig` dataclass. -/
structure StorageConfig where
  supported_types : List String
  default_regions : List (String × String)
deriving DecidableEq, Repr

/-- Default field values of `StorageConfig`. -/
def StorageConfig.default : StorageConfig :=
  { supported_types := ["s3", "gcs", "azure"]
    default_regions := [("s3", "us-east-1"), ("gcs", "us-central1"), ("azure", "eastus")] }

/-- `BackupConfig` dataclass. -/
structure BackupConfig where
  default_schedule : String
  default_retention_days : Nat
  successful_jobs_history_limit : Nat
  failed_jobs_history_limit : Nat
  backup_timeout_seconds : Nat
  memory_request : String
  memory_limit : String
  cpu_request : String
  cpu_limit : String
  temp_storage_size : String
deriving DecidableEq, Repr

/-- Default field values of `BackupConfig`. -/
def BackupConfig.default : BackupConfig :=
  { default_schedule := "0 2 * * *"
    default_retention_days := 7
    successful_jobs_history_limit := 3
    failed_jobs_history_limit := 1
    backup_timeout_seconds := 3600
    memory_request := "256Mi"
    memory_limit := "512Mi"
    cpu_request := "100m"
    cpu_limit := "500m"
    temp_storage_size := "10Gi" }

/-- `OperatorConfig` dataclass. -/
structure OperatorConfig where
  name : String
  version : String
  namespace_ : Option String
  database : DatabaseConfig
  storage : StorageConfig
  backup : BackupConfig
  reconciliation_interval : Nat
  log_level : String
  enable_webhooks : Bool
  enable_metrics : Bool
deriving DecidableEq, Repr

/-- `OperatorConfig.from_env`: dataclass defaults (whose factories read
`LOG_LEVEL`, `ENABLE_WEBHOOKS`, `ENABLE_METRICS`) plus the explicit overrides
for namespace, default schedule and default retention.  An empty-string
environment value is falsy in Python, so it does not override. -/
def OperatorConfig.from_env (env : EnvSettings) : OperatorConfig :=
  { name := "db-backup-operator"
    version := "0.1.0"
    namespace_ :=
      match env.OPERATOR_NAMESPACE with
      | some ns => if ns = "" then none else some ns
      | none => none
    database := DatabaseConfig.default
    storage := StorageConfig.default
    backup :=
      { BackupConfig.default with
        default_schedule :=
          match env.DEFAULT_BACKUP_SCHEDULE with
          | some s => if s = "" then BackupConfig.default.default_schedule else s
          | none => BackupConfig.default.default_schedule
        default_retention_days :=
          env.DEFAULT_RETENTION_DAYS.getD BackupConfig.default.default_retention_days }
    reconciliation_interval := 300
    log_level := env.LOG_LEVEL.getD "INFO"
    enable_webhooks := (env.ENABLE_WEBHOOKS.getD "false").toLower == "true"
    enable_metrics := (env.ENABLE_METRICS.getD "false").toLower == "true" }

/-- `OperatorConfig.validate` (raises `ValueError` on bad values). -/
def OperatorConfig.validate (c : OperatorConfig) : Except String Unit :=
  if c.reconciliation_interval < 60 then
    .error "Reconciliation interval must be at least 60 seconds"
  else if c.backup.default_retention_days < 1 then
    .error "Retention days must be at least 1"
  else if c.backup.backup_timeout_seconds < 60 then
    .error "Backup timeout must be at least 60 seconds"
  else
    .ok ()

/-- `OperatorConfig.get_database_image`. -/
def OperatorConfig.get_database_image (c : OperatorConfig) (db_type : String) : String :=
  (dictGet c.database.images db_type).getD ((dictGet c.database.images "postgres").getD "")

/-- `OperatorConfig.get_default_port`. -/
def OperatorConfig.get_default_port (c : OperatorConfig) (db_type : String) : Nat :=
  (dictGet c.database.default_ports db_type).getD 5432

/-- `OperatorConfig.get_default_region`. -/
def OperatorConfig.get_default_region (c : OperatorConfig) (storage_type : String) : String :=
  (dictGet c.storage.default_regions storage_type).getD "us-east-1"

/-- `OperatorConfig.is_database_supported`. -/
def OperatorConfig.is_database_supported (c : OperatorConfig) (db_type : String) : Prop :=
  db_type ∈ c.database.supported_types

instance (c : OperatorConfig) (t : String) : Decidable (c.is_database_supported t) :=
  inferInstanceAs (Decidable (t ∈ c.database.supported_types))

/-- `OperatorConfig.is_storage_supported`. -/
def OperatorConfig.is_storage_supported (c : OperatorConfig) (storage_type : String) : Prop :=
  storage_type ∈ c.storage.supported_types

instance (c : OperatorConfig) (t : String) : Decidable (c.is_storage_supported t) :=
  inferInstanceAs (Decidable (t ∈ c.storage.supported_types))

/-! ## templates.py -/

/-- A `secretKeyRef` environment-variable source. -/
structure SecretKeyRef where
  name : String
  key : String
deriving DecidableEq, Repr

/-- Value of a container environment variable: either `valueFrom.secretKeyRef`
or a literal `value`. -/
inductive EnvValue where
  | fromSecret (secretKeyRef : SecretKeyRef)
  | literal (value : String)
deriving DecidableEq, Repr

/-- One entry of the container `env` list. -/
structure EnvVar where
  name : String
  value : EnvValue
deriving DecidableEq, Repr

/-- `ManifestTemplates.get_backup_commands`: the engine-keyed dict of command
templates (`\x7bhost\x7d` / `\x7bdatabase\x7d` are the `str.format`
placeholders of the source). -/
def get_backup_commands : List (String × String) :=
  [("postgres",
    "pg_dump -h \x7bhost\x7d -U $DB_USER -d \x7bdatabase\x7d | gzip > /backup/backup-$(date +%Y%m%d-%H%M%S).sql.gz"),
   ("mysql",
    "mysqldump -h \x7bhost\x7d -u $DB_USER -p$DB_PASSWORD \x7bdatabase\x7d | gzip > /backup/backup-$(date +%Y%m%d-%H%M%S).sql.gz"),
   ("mongodb",
    "mongodump --host \x7bhost\x7d --db \x7bdatabase\x7d --archive=/backup/backup-$(date +%Y%m%d-%H%M%S).archive --gzip")]

/-- `template.format(host=..., database=...)` for the backup command templates. -/
def pyFormat (template host database : String) : String :=
  (template.replace "\x7bhost\x7d" host).replace "\x7bdatabase\x7d" database

/-- `backup_commands.get(db_type, backup_commands['postgres'])`
(templates.py line 56). -/
def get_backup_command_template (db_type : String) : String :=
  (dictGet get_backup_commands db_type).getD ((dictGet get_backup_commands "postgres").getD "")

/-- `ManifestTemplates.get_upload_command`: the exact command string (the
trailing backslash-newline of the Python triple-quoted f-string is a line
continuation, leaving the following indentation in place). -/
def get_upload_command (bucket namespace_ name : String) (retention : Nat) : String :=
  "\n        aws s3 cp /backup/*.gz s3://" ++ bucket ++ "/" ++ namespace_ ++ "/" ++ name
    ++ "/ &&         aws s3 ls s3://" ++ bucket ++ "/" ++ namespace_ ++ "/" ++ name
    ++ "/ | sort -r | tail -n +" ++ toString (retention + 1)
    ++ " | awk '\x7bprint $4\x7d' | xargs -I \x7b\x7d aws s3 rm s3://"
    ++ bucket ++ "/" ++ namespace_ ++ "/" ++ name ++ "/\x7b\x7d\n        "

/-! Semantics of the cleanup pipeline inside `get_upload_command`:
`aws s3 ls ... | sort -r | tail -n +(retention+1) | awk '\x7bprint $4\x7d' | xargs ... rm`.
The listing is one line per stored object; `sort -r` orders lines descending
(newest first, since the lines begin with the upload timestamp); `tail -n +k`
keeps lines from line `k` on; `awk` projects the object name (4th
whitespace-separated field) of each surviving line; each projected name is
deleted. -/

/-- `sort -r`: sort lines in reverse (descending) lexicographic order. -/
def sort_r (lines : List String) : List String :=
  lines.insertionSort (· ≥ ·)

/-- `tail -n +k`: drop the first `k - 1` lines. -/
def tail_from (k : Nat) (lines : List String) : List String :=
  lines.drop (k - 1)

/-- `awk '\x7bprint $4\x7d'`: the 4th whitespace-separated field of a line. -/
def awk_field4 (line : String) : String :=
  (((line.split (· = ' ')).filter (· ≠ ""))[3]?).getD ""

/-- The listing entries that the cleanup pipeline of
`get_upload_command _ _ _ retention` selects for deletion. -/
def cleanup_selection (listing : List String) (retention : Nat) : List String :=
  tail_from (retention + 1) (sort_r listing)

/-- The object names passed to `aws s3 rm` by the cleanup pipeline. -/
def cleanup_deleted_objects (listing : List String) (retention : Nat) : List String :=
  (cleanup_selection listing retention).map awk_field4

/-- The `database` block of a DatabaseBackup spec.  A missing optional key is
`none`; `host`/`name` use Python truthiness, so the empty string stands for a
missing or empty value. -/
structure DatabaseSpec where
  type_ : String
  host : String
  name : String
  credentialsSecret : Option String := none
deriving DecidableEq, Repr

/-- The `storage` block of a DatabaseBackup spec. -/
structure StorageSpec where
  type_ : String
  bucket : String
  region : Option String := none
  credentialsSecret : Option String := none
deriving DecidableEq, Repr

/-- A container volume mount. -/
structure VolumeMount where
  name : String
  mountPath : String
deriving DecidableEq, Repr

/-- One side (requests or limits) of the container resources. -/
structure ResourceSpec where
  memory : String
  cpu : String
deriving DecidableEq, Repr

/-- Container resource requests and limits. -/
structure Resources where
  requests : ResourceSpec
  limits : ResourceSpec
deriving DecidableEq, Repr

/-- The backup container of the generated CronJob. -/
structure Container where
  name : String
  image : String
  command : List String
  args : List String
  env : List EnvVar
  volumeMounts : List VolumeMount
  resources : Resources
deriving DecidableEq, Repr

/-- An `emptyDir` pod volume. -/
structure Volume where
  name : String
  emptyDirSizeLimit : String
deriving DecidableEq, Repr

/-- The pod spec of the job template. -/
structure PodSpec where
  restartPolicy : String
  containers : List Container
  volumes : List Volume
deriving DecidableEq, Repr

/-- The pod template (metadata labels plus pod spec). -/
structure PodTemplate where
  labels : List (String × String)
  spec : PodSpec
deriving DecidableEq, Repr

/-- The job template of the CronJob spec. -/
structure JobSpec where
  backoffLimit : Nat
  activeDeadlineSeconds : Nat
  template : PodTemplate
deriving DecidableEq, Repr

/-- The CronJob `spec` block. -/
structure CronJobSpec where
  schedule : String
  successfulJobsHistoryLimit : Nat
  failedJobsHistoryLimit : Nat
  concurrencyPolicy : String
  jobTemplate : JobSpec
deriving DecidableEq, Repr

/-- Object metadata (name, namespace, labels). -/
structure Metadata where
  name : String
  namespace_ : String
  labels : List (String × String)
deriving DecidableEq, Repr

/-- The generated `batch/v1` CronJob manifest. -/
structure CronJob where
  apiVersion : String
  kind : String
  metadata : Metadata
  spec : CronJobSpec
deriving DecidableEq, Repr

/-- `ManifestTemplates._get_container_env` (the password entry is inserted at
index 1 for postgres/mysql only). -/
def _get_container_env (db_type db_creds_secret storage_creds_secret storage_region : String) :
    List EnvVar :=
  let env_vars : List EnvVar :=
    [⟨"DB_USER", .fromSecret ⟨db_creds_secret, "username"⟩⟩,
     ⟨"AWS_ACCESS_KEY_ID", .fromSecret ⟨storage_creds_secret, "access-key"⟩⟩,
     ⟨"AWS_SECRET_ACCESS_KEY", .fromSecret ⟨storage_creds_secret, "secret-key"⟩⟩,
     ⟨"AWS_DEFAULT_REGION", .literal storage_region⟩]
  if db_type ∈ ["postgres", "mysql"] then
    env_vars.insertIdx 1 ⟨"DB_PASSWORD", .fromSecret ⟨db_creds_secret, "password"⟩⟩
  else
    env_vars

/-- `ManifestTemplates.cronjob_manifest` (`config` is the value the global
`get_config()` returns at call time). -/
def cronjob_manifest (config : OperatorConfig) (name namespace_ schedule : String)
    (database : DatabaseSpec) (storage : StorageSpec) (retention : Nat) : CronJob :=
  let db_type := database.type_
  let db_host := database.host
  let db_name := database.name
  let db_creds_secret := database.credentialsSecret.getD (name ++ "-db-creds")
  let storage_bucket := storage.bucket
  let storage_region := storage.region.getD (config.get_default_region storage.type_)
  let storage_creds_secret := storage.credentialsSecret.getD (name ++ "-storage-creds")
  let backup_cmd := pyFormat (get_backup_command_template db_type) db_host db_name
  let upload_cmd := get_upload_command storage_bucket namespace_ name retention
  let full_command := backup_cmd ++ " && " ++ upload_cmd
  { apiVersion := "batch/v1"
    kind := "CronJob"
    metadata :=
      { name := name ++ "-backup"
        namespace_ := namespace_
        labels := [("app", "database-backup"), ("backup-name", name),
                   ("managed-by", config.name), ("version", config.version)] }
    spec :=
      { schedule := schedule
        successfulJobsHistoryLimit := config.backup.successful_jobs_history_limit
        failedJobsHistoryLimit := config.backup.failed_jobs_history_limit
        concurrencyPolicy := "Forbid"
        jobTemplate :=
          { backoffLimit := 2
            activeDeadlineSeconds := config.backup.backup_timeout_seconds
            template :=
              { labels := [("app", "database-backup"), ("backup-name", name)]
                spec :=
                  { restartPolicy := "OnFailure"
                    containers :=
                      [{ name := "backup"
                         image := config.get_database_image db_type
                         command := ["/bin/sh", "-c"]
                         args := [full_command]
                         env := _get_container_env db_type db_creds_secret
                                  storage_creds_secret storage_region
                         volumeMounts := [⟨"backup-storage", "/backup"⟩]
                         resources :=
                           { requests := ⟨config.backup.memory_request, config.backup.cpu_request⟩
                             limits := ⟨config.backup.memory_limit, config.backup.cpu_limit⟩ } }]
                    volumes := [⟨"backup-storage", config.backup.temp_storage_size⟩] } } } } }

/-! ## handlers.py -/

/-- A kopf handler failure: `kopf.PermanentError` or `kopf.TemporaryError`
(with its retry delay in seconds). -/
inductive KopfError where
  | permanent (message : String)
  | temporary (message : String) (delay : Nat)
deriving DecidableEq, Repr

/-- A cluster-API failure (`kubernetes.client.exceptions.ApiException`),
reduced to the fields its string rendering uses. -/
structure ApiErr where
  status : Nat
  reason : String
deriving DecidableEq, Repr

/-- `str(e)` for an `ApiException` at the external boundary: the library
renders `"(\x7bstatus\x7d)\nReason: \x7breason\x7d\n"` (headers/body omitted). -/
def apiErrStr (e : ApiErr) : String :=
  "(" ++ toString e.status ++ ")\nReason: " ++ e.reason ++ "\n"

/-- The kopf `spec` of a DatabaseBackup resource as the handlers read it.
`retention_keepLast` models `spec.get('retention', \x7b\x7d).get('keepLast', ...)`:
`none` when either level of the lookup is absent. -/
structure BackupResourceSpec where
  schedule : Option String := none
  database : DatabaseSpec
  storage : StorageSpec
  retention_keepLast : Option Nat := none
deriving DecidableEq, Repr

/-- The payload a lifecycle handler returns on success. -/
structure HandlerResult where
  message : String
  cronjob : Option String := none
  retention : Option Nat := none
deriving DecidableEq, Repr

/-- A cluster-API call attempted by a handler, in order of attempt. -/
inductive ClusterAction where
  | deleteCronJob (name namespace_ propagation_policy : String)
  | createCronJob (namespace_ : String) (body : CronJob)
deriving DecidableEq, Repr

/-- `_validate_spec` (handlers.py lines 169-199): the five ordered checks,
each failing as a `kopf.PermanentError`. -/
def _validate_spec (config : OperatorConfig) (database : DatabaseSpec) (storage : StorageSpec) :
    Except KopfError Unit :=
  if ¬ config.is_database_supported database.type_ then
    .error (.permanent ("Unsupported database type: " ++ database.type_ ++
      ". Supported types: " ++ String.intercalate ", " config.database.supported_types))
  else if ¬ config.is_storage_supported storage.type_ then
    .error (.permanent ("Unsupported storage type: " ++ storage.type_ ++
      ". Supported types: " ++ String.intercalate ", " config.storage.supported_types))
  else if database.host = "" then
    .error (.permanent "Database host is required")
  else if database.name = "" then
    .error (.permanent "Database name is required")
  else if storage.bucket = "" then
    .error (.permanent "Storage bucket is required")
  else
    .ok ()

/-- `create_backup_job` (handlers.py lines 25-70).  `createResult` is the
outcome of `api.create_namespaced_cron_job`; the first component lists the
cluster-API calls actually attempted. -/
def create_backup_job (config : OperatorConfig) (spec : BackupResourceSpec)
    (name namespace_ : String) (createResult : Except ApiErr Unit) :
    List ClusterAction × Except KopfError HandlerResult :=
  let schedule := spec.schedule.getD config.backup.default_schedule
  let retention := spec.retention_keepLast.getD config.backup.default_retention_days
  match _validate_spec config spec.database spec.storage with
  | .error e => ([], .error e)
  | .ok _ =>
    let cronjob := cronjob_manifest config name namespace_ schedule spec.database spec.storage retention
    match createResult with
    | .ok _ =>
      ([.createCronJob namespace_ cronjob],
       .ok { message := "Backup CronJob created with schedule: " ++ schedule
             cronjob := some (name ++ "-backup")
             retention := some retention })
    | .error e =>
      ([.createCronJob namespace_ cronjob],
       .error (.permanent ("Cannot create CronJob: " ++ apiErrStr e)))

/-- `update_backup_job` (handlers.py lines 73-123).  The `try` block wraps the
delete, the validation and the re-create; only `ApiException` is caught (a
`kopf.PermanentError` from `_validate_spec` propagates uncaught), and a caught
`ApiException` becomes `kopf.TemporaryError(..., delay=30)`. -/
def update_backup_job (config : OperatorConfig) (spec : BackupResourceSpec)
    (name namespace_ : String) (deleteResult createResult : Except ApiErr Unit) :
    List ClusterAction × Except KopfError HandlerResult :=
  let delete := ClusterAction.deleteCronJob (name ++ "-backup") namespace_ "Foreground"
  match deleteResult with
  | .error e =>
    ([delete], .error (.temporary ("Cannot update CronJob: " ++ apiErrStr e) 30))
  | .ok _ =>
    let schedule := spec.schedule.getD config.backup.default_schedule
    let retention := spec.retention_keepLast.getD config.backup.default_retention_days
    match _validate_spec config spec.database spec.storage with
    | .error e => ([delete], .error e)
    | .ok _ =>
      let cronjob := cronjob_manifest config name namespace_ schedule spec.database spec.storage retention
      match createResult with
      | .error e =>
        ([delete, .createCronJob namespace_ cronjob],
         .error (.temporary ("Cannot update CronJob: " ++ apiErrStr e) 30))
      | .ok _ =>
        ([delete, .createCronJob namespace_ cronjob],
         .ok { message := "Backup job updated successfully" })

/-- `delete_backup_job` (handlers.py lines 126-133): no cluster action. -/
def delete_backup_job (name : String) : List ClusterAction × Except KopfError HandlerResult :=
  ([], .ok { message := "Backup job " ++ name ++ " deleted" })

/-- The status of the read CronJob as `check_backup_status` inspects it:
`last_schedule_time` (`none` = unset, falsy) and `active` (the possibly-absent
list of running job references; an empty list is falsy in Python). -/
structure CronJobStatus where
  last_schedule_time : Option String
  active : Option (List String)
deriving DecidableEq, Repr

/-- The kopf `patch.status` object: `none` means the handler did not write the
field (so the previously stored value survives the patch). -/
structure StatusPatch where
  phase : Option String := none
  lastBackup : Option String := none
  activeJobs : Option Nat := none
  error : Option String := none
deriving DecidableEq, Repr

/-- `check_backup_status` (handlers.py lines 136-166).  `readResult` is the
outcome of `api.read_namespaced_cron_job`. -/
def check_backup_status (readResult : Except ApiErr CronJobStatus) : StatusPatch :=
  match readResult with
  | .ok cronjob =>
    let patch : StatusPatch :=
      match cronjob.last_schedule_time with
      | some ts => { lastBackup := some ts, phase := some "Active" }
      | none => { phase := some "Pending" }
    match cronjob.active with
    | some jobs =>
      if jobs ≠ [] then { patch with activeJobs := some jobs.length }
      else { patch with activeJobs := some 0 }
    | none => { patch with activeJobs := some 0 }
  | .error e =>
    { phase := some "Error", error := some (apiErrStr e) }

/-- Count recorded in `activeJobs` on a successful read: `len(active)` when
the list is present and non-empty, otherwise `0` (which coincides with the
length in every case). -/
def running_job_count (cronjob : CronJobStatus) : Nat :=
  match cronjob.active with
  | some jobs => jobs.length
  | none => 0

/-! ## Helper lemmas -/

theorem apiErrStr_length_pos (e : ApiErr) : 0 < (apiErrStr e).length := by
  have h : ("(" : String).length = 1 := rfl
  simp only [apiErrStr, String.length_append]
  omega

theorem apiErrStr_ne_empty (e : ApiErr) : apiErrStr e ≠ "" := by
  intro h
  have h1 := apiErrStr_length_pos e
  rw [h, String.length_empty] at h1
  exact Nat.lt_irrefl 0 h1

theorem sort_r_sorted (listing : List String) : (sort_r listing).Sorted (· ≥ ·) :=
  List.sorted_insertionSort _ _

theorem sort_r_perm (listing : List String) : (sort_r listing).Perm listing :=
  List.perm_insertionSort _ _

theorem sort_r_length (listing : List String) : (sort_r listing).length = listing.length :=
  List.length_insertionSort _ _

/-! ## Claims -/

/-- Claim C1: for every simulated storage object listing of length `L` and
every retention value `N ≥ 0`, the cleanup pipeline generated by
`get_upload_command bucket namespace name N` (sort newest-first via `sort -r`,
skip the first `N` lines via `tail -n +(N+1)`, delete the rest) selects
exactly `L - N` objects (Nat subtraction, i.e. `max 0 (L - N)`) for deletion;
the selected objects are the `L - N` oldest: every surviving (kept) entry is
`≥` every selected entry in the newest-first order, and kept plus selected is
a permutation of the whole listing.  When `L ≤ N` the delete set is empty. -/
theorem cleanup_selects_max0_oldest (listing : List String) (retention : Nat) :
    (cleanup_selection listing retention).length = listing.length - retention ∧
    (cleanup_deleted_objects listing retention).length = listing.length - retention ∧
    (listing.length ≤ retention → cleanup_selection listing retention = []) ∧
    (∀ x ∈ cleanup_selection listing retention,
      ∀ y ∈ (sort_r listing).take retention, x ≤ y) ∧
    ((sort_r listing).take retention ++ cleanup_selection listing retention).Perm listing := by
  have hlen : (sort_r listing).length = listing.length := sort_r_length listing
  have hsel : cleanup_selection listing retention = (sort_r listing).drop retention := by
    simp [cleanup_selection, tail_from]
  refine ⟨?_, ?_, ?_, ?_, ?_⟩
  · rw [hsel, List.length_drop, hlen]
  · rw [cleanup_deleted_objects, List.length_map, hsel, List.length_drop, hlen]
  · intro h
    rw [hsel]
    exact List.drop_eq_nil_of_le (hlen ▸ h)
  · intro x hx y hy
    rw [hsel] at hx
    exact (sort_r_sorted listing).rel_of_mem_take_of_mem_drop hy hx
  · rw [hsel, List.take_append_drop]
    exact sort_r_perm listing

/-- Witness for C1 at a concrete listing of length 2 with retention 5: fewer
objects than the retention bound, so nothing is selected for deletion. -/
theorem cleanup_selects_max0_oldest_witness :
    cleanup_selection
      ["2024-05-02 10:00:00   1024 backup-a.sql.gz",
       "2024-05-03 10:00:00   1024 backup-b.sql.gz"] 5 = [] :=
  (cleanup_selects_max0_oldest
      ["2024-05-02 10:00:00   1024 backup-a.sql.gz",
       "2024-05-03 10:00:00   1024 backup-b.sql.gz"] 5).2.2.1 (by decide)

/-- Claim C5: the manifest builder is a pure function of the configuration
value and its six inputs — two invocations with identical arguments yield
identical CronJob definitions. -/
theorem cronjob_manifest_deterministic
    (config config' : OperatorConfig) (name name' namespace_ namespace_' schedule schedule' : String)
    (database database' : DatabaseSpec) (storage storage' : StorageSpec) (retention retention' : Nat)
    (hc : config = config') (hn : name = name') (hns : namespace_ = namespace_')
    (hs : schedule = schedule') (hd : database = database') (hst : storage = storage')
    (hr : retention = retention') :
    cronjob_manifest config name namespace_ schedule database storage retention =
      cronjob_manifest config' name' namespace_' schedule' database' storage' retention' := by
  subst hc hn hns hs hd hst hr
  rfl

/-- Witness for C5 at the end-to-end example spec (postgres to s3, keepLast 5). -/
theorem cronjob_manifest_deterministic_witness :
    cronjob_manifest (OperatorConfig.from_env {}) "orders-db" "default" "0 3 * * *"
        ⟨"postgres", "db.internal", "orders", none⟩ ⟨"s3", "backups", none, none⟩ 5 =
      cronjob_manifest (OperatorConfig.from_env {}) "orders-db" "default" "0 3 * * *"
        ⟨"postgres", "db.internal", "orders", none⟩ ⟨"s3", "backups", none, none⟩ 5 :=
  cronjob_manifest_deterministic _ _ _ _ _ _ _ _ _ _ _ _ _ _
    rfl rfl rfl rfl rfl rfl rfl

/-- Claim C7: for every backup resource name `X`, the derived CronJob is named
exactly `X ++ "-backup"` and lives in the namespace of the backup resource,
uniformly in all other inputs (so the naming is deterministic). -/
theorem scheduledjob_naming (config : OperatorConfig) (name namespace_ schedule : String)
    (database : DatabaseSpec) (storage : StorageSpec) (retention : Nat) :
    (cronjob_manifest config name namespace_ schedule database storage retention).metadata.name =
        name ++ "-backup" ∧
    (cronjob_manifest config name namespace_ schedule database storage retention).metadata.namespace_ =
        namespace_ :=
  ⟨rfl, rfl⟩

/-- Counterexample to C2 as stated: on a tick whose ScheduledJob read fails,
`check_backup_status` does not record `activeJobs` at all (the patch leaves
the field unwritten), so the count of running job instances is not recorded
on every tick. -/
theorem check_backup_status_error_tick_no_activeJobs :
    (check_backup_status (Except.error ⟨404, "Not Found"⟩)).activeJobs = none := rfl

/-- Claim C2 (amended): if the ScheduledJob read succeeds with a last-schedule
timestamp, the patched phase is Active and `lastBackup` equals the timestamp;
if it succeeds without one, the patched phase is Pending; if it fails, the
patched phase is Error and the patched error message is non-empty; and on
every tick whose read succeeds, the count of currently running job instances
is recorded in `activeJobs`. -/
theorem check_backup_status_derivation (readResult : Except ApiErr CronJobStatus) :
    (∀ cronjob ts, readResult = .ok cronjob → cronjob.last_schedule_time = some ts →
      (check_backup_status readResult).phase = some "Active" ∧
      (check_backup_status readResult).lastBackup = some ts) ∧
    (∀ cronjob, readResult = .ok cronjob → cronjob.last_schedule_time = none →
      (check_backup_status readResult).phase = some "Pending") ∧
    (∀ e, readResult = .error e →
      (check_backup_status readResult).phase = some "Error" ∧
      (check_backup_status readResult).error = some (apiErrStr e) ∧
      apiErrStr e ≠ "") ∧
    (∀ cronjob, readResult = .ok cronjob →
      (check_backup_status readResult).activeJobs = some (running_job_count cronjob)) := by
  refine ⟨?_, ?_, ?_, ?_⟩
  · rintro cj ts rfl hts
    cases hact : cj.active with
    | none => simp [check_backup_status, hts, hact]
    | some jobs => by_cases hj : jobs = [] <;> simp [check_backup_status, hts, hact, hj]
  · rintro cj rfl hts
    cases hact : cj.active with
    | none => simp [check_backup_status, hts, hact]
    | some jobs => by_cases hj : jobs = [] <;> simp [check_backup_status, hts, hact, hj]
  · rintro e rfl
    exact ⟨rfl, rfl, apiErrStr_ne_empty e⟩
  · rintro cj rfl
    cases hts : cj.last_schedule_time <;>
      cases hact : cj.active with
      | none => simp [check_backup_status, running_job_count, hts, hact]
      | some jobs =>
        by_cases hj : jobs = [] <;>
          simp [check_backup_status, running_job_count, hts, hact, hj]

/-- Witness for C2 (amended) on a successful read carrying a timestamp. -/
theorem check_backup_status_derivation_witness :
    (check_backup_status
        (Except.ok ⟨some "2024-05-01T02:00:00", some ["orders-db-backup-1"]⟩)).phase =
      some "Active" ∧
    (check_backup_status
        (Except.ok ⟨some "2024-05-01T02:00:00", some ["orders-db-backup-1"]⟩)).lastBackup =
      some "2024-05-01T02:00:00" :=
  (check_backup_status_derivation _).1 _ "2024-05-01T02:00:00" rfl rfl

/-- Claim C3: the generated environment list contains the `DB_PASSWORD`
secret reference exactly when the engine type is postgres or mysql (so never
for mongodb, where no entry is named `DB_PASSWORD` at all), and it always
contains the database-username reference, the storage access-key and
secret-key references, and the storage-region literal value. -/
theorem container_env_credential_asymmetry
    (db_type db_creds_secret storage_creds_secret storage_region : String) :
    (EnvVar.mk "DB_PASSWORD" (.fromSecret ⟨db_creds_secret, "password"⟩) ∈
        _get_container_env db_type db_creds_secret storage_creds_secret storage_region ↔
      (db_type = "postgres" ∨ db_type = "mysql")) ∧
    (db_type = "mongodb" →
      "DB_PASSWORD" ∉
        (_get_container_env db_type db_creds_secret storage_creds_secret storage_region).map
          EnvVar.name) ∧
    EnvVar.mk "DB_USER" (.fromSecret ⟨db_creds_secret, "username"⟩) ∈
      _get_container_env db_type db_creds_secret storage_creds_secret storage_region ∧
    EnvVar.mk "AWS_ACCESS_KEY_ID" (.fromSecret ⟨storage_creds_secret, "access-key"⟩) ∈
      _get_container_env db_type db_creds_secret storage_creds_secret storage_region ∧
    EnvVar.mk "AWS_SECRET_ACCESS_KEY" (.fromSecret ⟨storage_creds_secret, "secret-key"⟩) ∈
      _get_container_env db_type db_creds_secret storage_creds_secret storage_region ∧
    EnvVar.mk "AWS_DEFAULT_REGION" (.literal storage_region) ∈
      _get_container_env db_type db_creds_secret storage_creds_secret storage_region := by
  by_cases h : db_type = "postgres" ∨ db_type = "mysql"
  · refine ⟨⟨fun _ => h, fun _ => ?_⟩, fun hm => ?_, ?_, ?_, ?_, ?_⟩
    · simp [_get_container_env, h, List.insertIdx]
    · rw [hm] at h
      simp at h
    · simp [_get_container_env, h, List.insertIdx]
    · simp [_get_container_env, h, List.insertIdx]
    · simp [_get_container_env, h, List.insertIdx]
    · simp [_get_container_env, h, List.insertIdx]
  · have hnot : EnvVar.mk "DB_PASSWORD" (.fromSecret ⟨db_creds_secret, "password"⟩) ∉
        _get_container_env db_type db_creds_secret storage_creds_secret storage_region := by
      simp [_get_container_env, h]
    refine ⟨⟨fun hmem => absurd hmem hnot, fun hh => absurd hh h⟩, fun _ => ?_, ?_, ?_, ?_, ?_⟩ <;>
      simp [_get_container_env, h]

/-- Witness for C3: with engine type postgres, the password reference is in
the generated environment list. -/
theorem container_env_credential_asymmetry_witness :
    EnvVar.mk "DB_PASSWORD" (.fromSecret ⟨"orders-db-db-creds", "password"⟩) ∈
      _get_container_env "postgres" "orders-db-db-creds" "orders-db-storage-creds" "us-east-1" :=
  (container_env_credential_asymmetry "postgres" "orders-db-db-creds" "orders-db-storage-creds"
      "us-east-1").1.mpr (Or.inl rfl)

/-- Claim C4: `_validate_spec` performs its checks in order (engine type,
storage type, host, name, bucket), fails on the first violated check with a
permanent error whose message names the offending field (and, for the two
type checks, lists the full supported-set), and succeeds — purely, with no
cluster action — on a complete spec with a supported engine and storage
type. -/
theorem validate_spec_checks_in_order (env : EnvSettings) (database : DatabaseSpec)
    (storage : StorageSpec) :
    (database.type_ ∉ ["postgres", "mysql", "mongodb"] →
      _validate_spec (OperatorConfig.from_env env) database storage =
        .error (.permanent ("Unsupported database type: " ++ database.type_ ++
          ". Supported types: " ++ "postgres, mysql, mongodb"))) ∧
    (database.type_ ∈ ["postgres", "mysql", "mongodb"] →
      storage.type_ ∉ ["s3", "gcs", "azure"] →
      _validate_spec (OperatorConfig.from_env env) database storage =
        .error (.permanent ("Unsupported storage type: " ++ storage.type_ ++
          ". Supported types: " ++ "s3, gcs, azure"))) ∧
    (database.type_ ∈ ["postgres", "mysql", "mongodb"] →
      storage.type_ ∈ ["s3", "gcs", "azure"] → database.host = "" →
      _validate_spec (OperatorConfig.from_env env) database storage =
        .error (.permanent "Database host is required")) ∧
    (database.type_ ∈ ["postgres", "mysql", "mongodb"] →
      storage.type_ ∈ ["s3", "gcs", "azure"] → database.host ≠ "" → database.name = "" →
      _validate_spec (OperatorConfig.from_env env) database storage =
        .error (.permanent "Database name is required")) ∧
    (database.type_ ∈ ["postgres", "mysql", "mongodb"] →
      storage.type_ ∈ ["s3", "gcs", "azure"] → database.host ≠ "" → database.name ≠ "" →
      storage.bucket = "" →
      _validate_spec (OperatorConfig.from_env env) database storage =
        .error (.permanent "Storage bucket is required")) ∧
    (database.type_ ∈ ["postgres", "mysql", "mongodb"] →
      storage.type_ ∈ ["s3", "gcs", "azure"] → database.host ≠ "" → database.name ≠ "" →
      storage.bucket ≠ "" →
      _validate_spec (OperatorConfig.from_env env) database storage = .ok ()) := by
  have cast1 : database.type_ ∉ ["postgres", "mysql", "mongodb"] →
      ¬ (OperatorConfig.from_env env).is_database_supported database.type_ := fun h => h
  have cast1' : database.type_ ∈ ["postgres", "mysql", "mongodb"] →
      ¬¬ (OperatorConfig.from_env env).is_database_supported database.type_ := fun h =>
    not_not_intro h
  have cast2 : storage.type_ ∉ ["s3", "gcs", "azure"] →
      ¬ (OperatorConfig.from_env env).is_storage_supported storage.type_ := fun h => h
  have cast2' : storage.type_ ∈ ["s3", "gcs", "azure"] →
      ¬¬ (OperatorConfig.from_env env).is_storage_supported storage.type_ := fun h =>
    not_not_intro h
  refine ⟨?_, ?_, ?_, ?_, ?_, ?_⟩
  · intro h1
    unfold _validate_spec
    rw [if_pos (cast1 h1)]
    rfl
  · intro h1 h2
    unfold _validate_spec
    rw [if_neg (cast1' h1), if_pos (cast2 h2)]
    rfl
  · intro h1 h2 h3
    unfold _validate_spec
    rw [if_neg (cast1' h1), if_neg (cast2' h2), if_pos h3]
  · intro h1 h2 h3 h4
    unfold _validate_spec
    rw [if_neg (cast1' h1), if_neg (cast2' h2), if_neg h3, if_pos h4]
  · intro h1 h2 h3 h4 h5
    unfold _validate_spec
    rw [if_neg (cast1' h1), if_neg (cast2' h2), if_neg h3, if_neg h4, if_pos h5]
  · intro h1 h2 h3 h4 h5
    unfold _validate_spec
    rw [if_neg (cast1' h1), if_neg (cast2' h2), if_neg h3, if_neg h4, if_neg h5]

/-- Witness for C4: an unsupported engine type fails the first check with the
permanent error naming the type and the supported-set. -/
theorem validate_spec_checks_in_order_witness :
    _validate_spec (OperatorConfig.from_env {})
        ⟨"oracle", "db.internal", "orders", none⟩ ⟨"s3", "backups", none, none⟩ =
      .error (.permanent ("Unsupported database type: " ++ "oracle" ++
        ". Supported types: " ++ "postgres, mysql, mongodb")) :=
  (validate_spec_checks_in_order {} ⟨"oracle", "db.internal", "orders", none⟩
      ⟨"s3", "backups", none, none⟩).1 (by decide)

/-- Claim C6: with a valid spec, a cluster-API failure in the create handler
is caught and raised as `kopf.PermanentError`, while a cluster-API failure in
the update handler (whether of the delete or of the re-create) is caught and
raised as `kopf.TemporaryError` with the fixed 30-second delay — in both
handlers the raw API error is reclassified before any retry decision. -/
theorem api_error_classification (env : EnvSettings) (spec : BackupResourceSpec)
    (name namespace_ : String) (e : ApiErr) (createResult : Except ApiErr Unit)
    (hv : _validate_spec (OperatorConfig.from_env env) spec.database spec.storage = .ok ()) :
    (create_backup_job (OperatorConfig.from_env env) spec name namespace_ (.error e)).2 =
        .error (.permanent ("Cannot create CronJob: " ++ apiErrStr e)) ∧
    (update_backup_job (OperatorConfig.from_env env) spec name namespace_ (.error e)
        createResult).2 =
      .error (.temporary ("Cannot update CronJob: " ++ apiErrStr e) 30) ∧
    (update_backup_job (OperatorConfig.from_env env) spec name namespace_ (.ok ())
        (.error e)).2 =
      .error (.temporary ("Cannot update CronJob: " ++ apiErrStr e) 30) := by
  refine ⟨?_, rfl, ?_⟩
  · simp [create_backup_job, hv]
  · simp [update_backup_job, hv]

/-- Witness for C6: a conflict on create is reported as a permanent error. -/
theorem api_error_classification_witness :
    (create_backup_job (OperatorConfig.from_env {})
        ⟨none, ⟨"postgres", "db.internal", "orders", none⟩, ⟨"s3", "backups", none, none⟩, none⟩
        "orders-db" "default" (.error ⟨409, "Conflict"⟩)).2 =
      .error (.permanent ("Cannot create CronJob: " ++ apiErrStr ⟨409, "Conflict"⟩)) :=
  (api_error_classification {}
      ⟨none, ⟨"postgres", "db.internal", "orders", none⟩, ⟨"s3", "backups", none, none⟩, none⟩
      "orders-db" "default" ⟨409, "Conflict"⟩ (.ok ()) rfl).1

/-- Claim C8: an engine type outside the fixed lookup falls back to the
postgres container image and the postgres backup-command template instead of
failing; an engine type in the lookup uses its own image and template; and
the manifest builder wires exactly this image and this (formatted) command
into the single backup container. -/
theorem engine_lookup_fallback (env : EnvSettings) (name namespace_ schedule : String)
    (database : DatabaseSpec) (storage : StorageSpec) (retention : Nat) :
    (database.type_ ∉ ["postgres", "mysql", "mongodb"] →
      (OperatorConfig.from_env env).get_database_image database.type_ = "postgres:15-alpine" ∧
      get_backup_command_template database.type_ = get_backup_command_template "postgres") ∧
    ((OperatorConfig.from_env env).get_database_image "postgres" = "postgres:15-alpine" ∧
      (OperatorConfig.from_env env).get_database_image "mysql" = "mysql:8.0" ∧
      (OperatorConfig.from_env env).get_database_image "mongodb" = "mongo:7.0") ∧
    (get_backup_command_template "postgres" = (dictGet get_backup_commands "postgres").getD "" ∧
      get_backup_command_template "mysql" = (dictGet get_backup_commands "mysql").getD "" ∧
      get_backup_command_template "mongodb" = (dictGet get_backup_commands "mongodb").getD "") ∧
    ((cronjob_manifest (OperatorConfig.from_env env) name namespace_ schedule database storage
          retention).spec.jobTemplate.template.spec.containers.map Container.image =
        [(OperatorConfig.from_env env).get_database_image database.type_] ∧
      (cronjob_manifest (OperatorConfig.from_env env) name namespace_ schedule database storage
          retention).spec.jobTemplate.template.spec.containers.map Container.args =
        [[pyFormat (get_backup_command_template database.type_) database.host database.name ++
          " && " ++ get_upload_command storage.bucket namespace_ name retention]]) := by
  refine ⟨?_, ⟨rfl, rfl, rfl⟩, ⟨rfl, rfl, rfl⟩, rfl, rfl⟩
  intro h
  have h1 : ¬ ("postgres" = database.type_) := fun hh => h (by simp [hh.symm])
  have h2 : ¬ ("mysql" = database.type_) := fun hh => h (by simp [hh.symm])
  have h3 : ¬ ("mongodb" = database.type_) := fun hh => h (by simp [hh.symm])
  constructor
  · simp [OperatorConfig.get_database_image, OperatorConfig.from_env, DatabaseConfig.default,
      dictGet, h1, h2, h3]
  · simp [get_backup_command_template, get_backup_commands, dictGet, h1, h2, h3]

/-- Witness for C8 at the unsupported engine type `oracle`. -/
theorem engine_lookup_fallback_witness :
    (OperatorConfig.from_env {}).get_database_image "oracle" = "postgres:15-alpine" ∧
    get_backup_command_template "oracle" = get_backup_command_template "postgres" :=
  (engine_lookup_fallback {} "orders-db" "default" "0 3 * * *"
      ⟨"oracle", "db.internal", "orders", none⟩ ⟨"s3", "backups", none, none⟩ 7).1 (by decide)

/-- Every failure of `_validate_spec` is a permanent error. -/
theorem validate_spec_error_permanent (config : OperatorConfig) (database : DatabaseSpec)
    (storage : StorageSpec) (e : KopfError)
    (h : _validate_spec config database storage = .error e) : ∃ m, e = KopfError.permanent m := by
  unfold _validate_spec at h
  split_ifs at h <;> exact ⟨_, (Except.error.inj h).symm⟩

/-- Claim C9: the update handler deletes the existing ScheduledJob before
validating the new spec: when the delete succeeds and the new spec is
invalid, the handler has already issued the delete, issues no create, and
raises the validation error itself — a permanent error, bypassing the
transient-retry classification reserved for cluster-API failures. -/
theorem update_deletes_before_validation (env : EnvSettings) (spec : BackupResourceSpec)
    (name namespace_ : String) (e : KopfError) (createResult : Except ApiErr Unit)
    (hv : _validate_spec (OperatorConfig.from_env env) spec.database spec.storage = .error e) :
    update_backup_job (OperatorConfig.from_env env) spec name namespace_ (.ok ()) createResult =
      ([ClusterAction.deleteCronJob (name ++ "-backup") namespace_ "Foreground"], .error e) ∧
    ∃ m, e = KopfError.permanent m := by
  constructor
  · simp [update_backup_job, hv]
  · exact validate_spec_error_permanent _ _ _ _ hv

/-- Witness for C9: updating to an unsupported engine type leaves only the
delete performed and raises the permanent validation error. -/
theorem update_deletes_before_validation_witness :
    update_backup_job (OperatorConfig.from_env {})
        ⟨none, ⟨"oracle", "db.internal", "orders", none⟩, ⟨"s3", "backups", none, none⟩, none⟩
        "orders-db" "default" (.ok ()) (.ok ()) =
      ([ClusterAction.deleteCronJob ("orders-db" ++ "-backup") "default" "Foreground"],
       .error (.permanent ("Unsupported database type: " ++ "oracle" ++
         ". Supported types: " ++ "postgres, mysql, mongodb"))) :=
  (update_deletes_before_validation {}
      ⟨none, ⟨"oracle", "db.internal", "orders", none⟩, ⟨"s3", "backups", none, none⟩, none⟩
      "orders-db" "default" _ (.ok ()) rfl).1

/-- Claim C10: the periodic status check writes only a subset of the status
fields on each branch: on a failed read it writes exactly `phase` and `error`
(`lastBackup` and `activeJobs` stay unwritten, so previously stored values
survive the Error phase); on a successful read without a last-schedule
timestamp it leaves `lastBackup` unwritten. -/
theorem check_backup_status_frame (readResult : Except ApiErr CronJobStatus) :
    (∀ e, readResult = .error e →
      check_backup_status readResult =
        { phase := some "Error", error := some (apiErrStr e),
          lastBackup := none, activeJobs := none }) ∧
    (∀ cronjob, readResult = .ok cronjob → cronjob.last_schedule_time = none →
      (check_backup_status readResult).lastBackup = none) := by
  constructor
  · rintro e rfl
    rfl
  · rintro cj rfl hts
    cases hact : cj.active with
    | none => simp [check_backup_status, hts, hact]
    | some jobs => by_cases hj : jobs = [] <;> simp [check_backup_status, hts, hact, hj]

/-- Witness for C10 on a concrete failed read. -/
theorem check_backup_status_frame_witness :
    check_backup_status (Except.error ⟨500, "Internal Server Error"⟩) =
      { phase := some "Error", error := some (apiErrStr ⟨500, "Internal Server Error"⟩),
        lastBackup := none, activeJobs := none } :=
  (check_backup_status_frame _).1 ⟨500, "Internal Server Error"⟩ rfl

end DbBackupOperator
